import Mathlib

/-!
Shallow embedding of the OOP Learning API (src/main.py) and proofs about its
quiz-grading and lesson-search behaviour.

Modelling conventions:
* Python `int` fields are modelled as `Int` (ids, chosen option indices); the
  grading score and question counts, which the code only ever builds from 0 by
  incrementing, are modelled as `Nat`.
* The Python `float` percentage is modelled exactly as a rational number `ℚ`;
  Python's `round(x, 2)` (round half to even) is modelled by `pyRound2`.
* The `for` loop of `submit_quiz` that accumulates `score` and `feedback` is
  modelled by the structural recursion `gradeAnswers`, which processes the
  submitted answers in order and returns the final accumulator contents.
* `HTTPException(status_code=404)` is modelled as `Except.error 404`.
* Python's substring test `a in b` on strings is modelled by `strIn`, and
  `str.lower()` by `pyLower` (ASCII case folding; all searched text in the
  embedded data is ASCII).
-/

/-- The `Difficulty` enum of src/main.py. -/
inductive Difficulty where
  | beginner
  | intermediate
  | advanced
deriving DecidableEq

/-- The `Lesson` model of src/main.py. -/
structure Lesson where
  id : Int
  title : String
  difficulty : Difficulty
  content : String
  code_example : String
  key_concepts : List String
deriving DecidableEq

/-- The `QuizQuestion` model of src/main.py. -/
structure QuizQuestion where
  id : Int
  question : String
  options : List String
  correct_answer : Int
  explanation : String
deriving DecidableEq

/-- The `Quiz` model of src/main.py. -/
structure Quiz where
  id : Int
  lesson_id : Int
  title : String
  questions : List QuizQuestion
deriving DecidableEq

/-- The `QuizAnswer` model of src/main.py. -/
structure QuizAnswer where
  question_id : Int
  answer : Int
deriving DecidableEq

/-- The `QuizSubmission` model of src/main.py. -/
structure QuizSubmission where
  answers : List QuizAnswer
deriving DecidableEq

/-- The `QuizResult` model of src/main.py (`percentage: float` modelled as `ℚ`). -/
structure QuizResult where
  score : Nat
  total : Nat
  percentage : ℚ
  passed : Bool
  feedback : List String
deriving DecidableEq

/-- First element of `lessons_db` in src/main.py. -/
def lesson1 : Lesson :=
  { id := 1,
    title := "Introduction to Classes and Objects",
    difficulty := Difficulty.beginner,
    content := "\nClasses are blueprints for creating objects. An object is an instance of a class.\nA class defines attributes (data) and methods (functions) that objects of that class will have.\n\nKey Points:\n- A class is a template\n- An object is a concrete instance created from a class\n- Classes group related data and behavior together\n- This helps organize code and make it reusable\n        ",
    code_example := "\nclass Dog:\n    def __init__(self, name, age):\n        self.name = name\n        self.age = age\n\n    def bark(self):\n        return f\"{self.name} says: Woof!\"\n\n# Creating objects (instances)\ndog1 = Dog(\"Buddy\", 3)\ndog2 = Dog(\"Max\", 5)\n\nprint(dog1.bark())  # Output: Buddy says: Woof!\nprint(dog2.bark())  # Output: Max says: Woof!\n        ",
    key_concepts := ["Class", "Object", "Instance", "Attributes", "Methods", "Constructor"] }

/-- Second element of `lessons_db` in src/main.py. -/
def lesson2 : Lesson :=
  { id := 2,
    title := "Inheritance",
    difficulty := Difficulty.intermediate,
    content := "\nInheritance allows a class to inherit attributes and methods from another class.\nThe class being inherited from is called the parent (or base) class.\nThe class that inherits is called the child (or derived) class.\n\nBenefits:\n- Code reusability: avoid repeating code\n- Logical structure: represent real-world relationships\n- Polymorphism: child classes can override parent methods\n        ",
    code_example := "\nclass Animal:\n    def __init__(self, name):\n        self.name = name\n\n    def make_sound(self):\n        return \"Some generic sound\"\n\nclass Dog(Animal):\n    def make_sound(self):\n        return f\"{self.name} says: Woof!\"\n\nclass Cat(Animal):\n    def make_sound(self):\n        return f\"{self.name} says: Meow!\"\n\n# Both inherit from Animal\ndog = Dog(\"Buddy\")\ncat = Cat(\"Whiskers\")\n\nprint(dog.make_sound())  # Buddy says: Woof!\nprint(cat.make_sound())  # Whiskers says: Meow!\n        ",
    key_concepts := ["Inheritance", "Parent Class", "Child Class", "Override", "super()"] }

/-- Third element of `lessons_db` in src/main.py. -/
def lesson3 : Lesson :=
  { id := 3,
    title := "Encapsulation",
    difficulty := Difficulty.intermediate,
    content := "\nEncapsulation is the bundling of data (attributes) and methods into a single unit (class).\nIt also involves hiding internal details from the outside world using access modifiers.\n\nIn Python:\n- Public: accessible from anywhere (no prefix)\n- Protected: intended for internal use (_prefix)\n- Private: not accessible outside the class (__prefix)\n\nBenefits:\n- Data protection: control how data is accessed and modified\n- Data hiding: expose only necessary interfaces\n- Maintainability: change internal implementation without affecting external code\n        ",
    code_example := "\nclass BankAccount:\n    def __init__(self, balance):\n        self.__balance = balance  # Private attribute\n\n    def deposit(self, amount):\n        if amount > 0:\n            self.__balance += amount\n            return f\"Deposited: ${amount}\"\n        return \"Invalid amount\"\n\n    def withdraw(self, amount):\n        if 0 < amount <= self.__balance:\n            self.__balance -= amount\n            return f\"Withdrew: ${amount}\"\n        return \"Insufficient funds\"\n\n    def get_balance(self):\n        return self.__balance\n\naccount = BankAccount(1000)\nprint(account.deposit(500))  # Deposited: $500\nprint(account.get_balance())  # 1500\n# account.__balance = -1000  # Error: Cannot access private attribute\n        ",
    key_concepts := ["Encapsulation", "Access Modifiers", "Private", "Protected", "Public", "Getters", "Setters"] }

/-- Fourth element of `lessons_db` in src/main.py. -/
def lesson4 : Lesson :=
  { id := 4,
    title := "Polymorphism",
    difficulty := Difficulty.advanced,
    content := "\nPolymorphism means \"many forms\". It allows objects of different types to be treated as objects of a common parent type.\nThere are two main types: compile-time (method overloading) and runtime (method overriding).\n\nBenefits:\n- Write flexible and reusable code\n- Use a single interface for different data types\n- Makes code extensible and maintainable\n        ",
    code_example := "\nclass Shape:\n    def area(self):\n        pass\n\nclass Circle(Shape):\n    def __init__(self, radius):\n        self.radius = radius\n\n    def area(self):\n        return 3.14 * self.radius ** 2\n\nclass Rectangle(Shape):\n    def __init__(self, width, height):\n        self.width = width\n        self.height = height\n\n    def area(self):\n        return self.width * self.height\n\n# Polymorphism in action\nshapes = [Circle(5), Rectangle(4, 6)]\n\nfor shape in shapes:\n    print(f\"Area: {shape.area()}\")  # Calls appropriate method\n        ",
    key_concepts := ["Polymorphism", "Method Overriding", "Interface", "Dynamic Dispatch"] }

/-- Fifth element of `lessons_db` in src/main.py. -/
def lesson5 : Lesson :=
  { id := 5,
    title := "Abstraction",
    difficulty := Difficulty.advanced,
    content := "\nAbstraction is the concept of hiding complex implementation details and showing only the necessary features.\nIt focuses on what an object does rather than how it does it.\n\nIn Python, we use abstract classes and abstract methods to enforce abstraction.\n\nBenefits:\n- Reduce complexity by hiding implementation details\n- Define a clear interface for subclasses\n- Enforce consistency across implementations\n        ",
    code_example := "\nfrom abc import ABC, abstractmethod\n\nclass Vehicle(ABC):\n    @abstractmethod\n    def start(self):\n        pass\n\n    @abstractmethod\n    def stop(self):\n        pass\n\nclass Car(Vehicle):\n    def start(self):\n        return \"Car engine started\"\n\n    def stop(self):\n        return \"Car engine stopped\"\n\nclass Bike(Vehicle):\n    def start(self):\n        return \"Bike engine started\"\n\n    def stop(self):\n        return \"Bike engine stopped\"\n\n# Cannot instantiate abstract class\n# vehicle = Vehicle()  # Error\n\ncar = Car()\nprint(car.start())  # Car engine started\n        ",
    key_concepts := ["Abstraction", "Abstract Class", "Abstract Method", "ABC", "Interface"] }

/-- The `lessons_db` list of src/main.py. -/
def lessons_db : List Lesson := [lesson1, lesson2, lesson3, lesson4, lesson5]

/-- First element of `quizzes_db` in src/main.py. -/
def quiz1 : Quiz :=
  { id := 1,
    lesson_id := 1,
    title := "Classes and Objects Quiz",
    questions := [
      { id := 1,
        question := "What is a class in OOP?",
        options := ["An instance of an object", "A blueprint for creating objects", "A method of a program", "A type of variable"],
        correct_answer := 1,
        explanation := "A class is a blueprint or template that defines the structure and behavior for objects." },
      { id := 2,
        question := "What is an object?",
        options := ["A collection of variables", "An instance of a class", "A function definition", "A data type"],
        correct_answer := 1,
        explanation := "An object is a concrete instance created from a class. It has actual values for the attributes defined in the class." },
      { id := 3,
        question := "What does __init__ do in a class?",
        options := ["Initializes the program", "Deletes an object", "Constructs and initializes a new object", "Returns a value"],
        correct_answer := 2,
        explanation := "__init__ is the constructor method that initializes a new object when it's created." }
    ] }

/-- Second element of `quizzes_db` in src/main.py. -/
def quiz2 : Quiz :=
  { id := 2,
    lesson_id := 2,
    title := "Inheritance Quiz",
    questions := [
      { id := 1,
        question := "What is inheritance?",
        options := ["Passing money to children", "A child class inheriting attributes and methods from a parent class", "Creating multiple objects", "Copying code from one file to another"],
        correct_answer := 1,
        explanation := "Inheritance allows a class (child) to inherit attributes and methods from another class (parent)." },
      { id := 2,
        question := "What is the main benefit of inheritance?",
        options := ["It makes code longer", "It helps organize imports", "Code reusability and logical structure", "It slows down execution"],
        correct_answer := 2,
        explanation := "Inheritance promotes code reusability and creates a logical hierarchical structure." }
    ] }

/-- The `quizzes_db` list of src/main.py. -/
def quizzes_db : List Quiz := [quiz1, quiz2]

/-- ASCII case folding of one character, the effect of Python `str.lower()`
on the ASCII strings stored in the embedded data. -/
def pyLowerChar (c : Char) : Char :=
  if 65 ≤ c.toNat ∧ c.toNat ≤ 90 then Char.ofNat (c.toNat + 32) else c

/-- Python `str.lower()` on the (ASCII) strings of this program. -/
def pyLower (s : String) : String := ⟨s.data.map pyLowerChar⟩

/-- Python substring containment `needle in haystack` on character lists. -/
def listContains (needle : List Char) : List Char → Bool
  | [] => needle.isEmpty
  | c :: rest => needle.isPrefixOf (c :: rest) || listContains needle rest

/-- Python substring containment `needle in haystack` for strings. -/
def strIn (needle haystack : String) : Bool := listContains needle.data haystack.data

/-- One row of the response of `search_lessons` in src/main.py. -/
structure SearchResult where
  id : Int
  title : String
  difficulty : Difficulty
  matching_concepts : List String
deriving DecidableEq

/-- `search_lessons` of src/main.py: keep the lessons whose lowercased title
or content contains the lowercased keyword, and report for each the
key concepts containing the keyword. -/
def search_lessons (keyword : String) : List SearchResult :=
  let keyword_lower := pyLower keyword
  (lessons_db.filter fun l =>
      strIn keyword_lower (pyLower l.title) || strIn keyword_lower (pyLower l.content)).map
    fun l =>
      { id := l.id,
        title := l.title,
        difficulty := l.difficulty,
        matching_concepts := l.key_concepts.filter fun c => strIn keyword_lower (pyLower c) }

/-- Round half to even to the nearest integer, Python's `round(y)` on exact
rational input. -/
def rhe (y : ℚ) : ℤ :=
  if y - (⌊y⌋ : ℚ) < 1/2 then ⌊y⌋
  else if 1/2 < y - (⌊y⌋ : ℚ) then ⌊y⌋ + 1
  else if ⌊y⌋ % 2 = 0 then ⌊y⌋ else ⌊y⌋ + 1

/-- Python's `round(x, 2)` on exact rational input. -/
def pyRound2 (x : ℚ) : ℚ := ((rhe (100 * x) : ℤ) : ℚ) / 100

/-- The answer-processing loop of `submit_quiz` in src/main.py: walk the
submitted answers in order; an answer whose `question_id` matches no question
is skipped; otherwise the answer is compared with the question's
`correct_answer`, incrementing the score on a match and appending one feedback
line either way.  Returns the final (score, feedback) accumulator pair. -/
def gradeAnswers (questions : List QuizQuestion) : List QuizAnswer → Nat × List String
  | [] => (0, [])
  | a :: rest =>
    let acc := gradeAnswers questions rest
    match questions.find? (fun q => q.id == a.question_id) with
    | none => acc
    | some q =>
      if a.answer == q.correct_answer then
        (acc.1 + 1, ("Q" ++ toString a.question_id ++ ": ✓ Correct! " ++ q.explanation) :: acc.2)
      else
        (acc.1, ("Q" ++ toString a.question_id ++ ": ✗ Incorrect. " ++ q.explanation) :: acc.2)

/-- The result-building part of `submit_quiz` in src/main.py, applied to the
quiz resolved from the store. -/
def gradeQuiz (quiz : Quiz) (submission : QuizSubmission) : QuizResult :=
  let graded := gradeAnswers quiz.questions submission.answers
  let total := quiz.questions.length
  let percentage : ℚ := if 0 < total then (graded.1 : ℚ) / (total : ℚ) * 100 else 0
  { score := graded.1,
    total := total,
    percentage := pyRound2 percentage,
    passed := decide (70 ≤ percentage),
    feedback := graded.2 }

/-- `submit_quiz` of src/main.py: resolve the quiz by id in `quizzes_db`;
if absent raise 404, else grade the submission against it. -/
def submit_quiz (quiz_id : Int) (submission : QuizSubmission) : Except Nat QuizResult :=
  match quizzes_db.find? (fun q => q.id == quiz_id) with
  | none => Except.error 404
  | some quiz => Except.ok (gradeQuiz quiz submission)

/-- `rhe` is the identity on integers. -/
theorem rhe_intCast (z : ℤ) : rhe (z : ℚ) = z := by
  norm_num [rhe, Int.floor_intCast]

/-- `rhe y` is at least `y - 1/2`. -/
theorem rhe_ge (y : ℚ) : y - 1/2 ≤ (rhe y : ℚ) := by
  unfold rhe
  have h1 : ((⌊y⌋ : ℤ) : ℚ) ≤ y := Int.floor_le y
  have h2 : y < (⌊y⌋ : ℚ) + 1 := Int.lt_floor_add_one y
  split_ifs <;> push_cast <;> linarith

/-- `rhe y` is at most `y + 1/2`. -/
theorem rhe_le (y : ℚ) : (rhe y : ℚ) ≤ y + 1/2 := by
  unfold rhe
  have h1 : ((⌊y⌋ : ℤ) : ℚ) ≤ y := Int.floor_le y
  have h2 : y < (⌊y⌋ : ℚ) + 1 := Int.lt_floor_add_one y
  split_ifs <;> push_cast <;> linarith

/-- Rounding a nonnegative number half to even stays nonnegative. -/
theorem rhe_nonneg (y : ℚ) (h : 0 ≤ y) : 0 ≤ rhe y := by
  have h0 : 0 ≤ ⌊y⌋ := Int.floor_nonneg.mpr h
  unfold rhe
  split_ifs <;> omega

/-- Rounding half to even never crosses an integer upper bound. -/
theorem rhe_le_intCast (y : ℚ) (z : ℤ) (h : y ≤ (z : ℚ)) : rhe y ≤ z := by
  have hf : ⌊y⌋ ≤ z := by
    have := Int.floor_le_floor h
    rwa [Int.floor_intCast] at this
  unfold rhe
  split_ifs with hlt hgt hev
  · exact hf
  · have h1 : ((⌊y⌋ : ℤ) : ℚ) < y := by linarith
    have h2 : (⌊y⌋ : ℚ) < (z : ℚ) := lt_of_lt_of_le h1 h
    have : ⌊y⌋ < z := by exact_mod_cast h2
    omega
  · exact hf
  · have h1 : ((⌊y⌋ : ℤ) : ℚ) < y := by linarith
    have h2 : (⌊y⌋ : ℚ) < (z : ℚ) := lt_of_lt_of_le h1 h
    have : ⌊y⌋ < z := by exact_mod_cast h2
    omega

/-- `pyRound2 x` is at least `x - 1/200`. -/
theorem pyRound2_ge (x : ℚ) : x - 1/200 ≤ pyRound2 x := by
  unfold pyRound2
  have := rhe_ge (100 * x)
  linarith

/-- `pyRound2 x` is at most `x + 1/200`. -/
theorem pyRound2_le (x : ℚ) : pyRound2 x ≤ x + 1/200 := by
  unfold pyRound2
  have := rhe_le (100 * x)
  linarith

/-- Rounding to two decimals keeps a nonnegative value nonnegative. -/
theorem pyRound2_nonneg (x : ℚ) (h : 0 ≤ x) : 0 ≤ pyRound2 x := by
  unfold pyRound2
  have h0 : 0 ≤ rhe (100 * x) := rhe_nonneg _ (by linarith)
  have h0' : (0 : ℚ) ≤ ((rhe (100 * x) : ℤ) : ℚ) := by exact_mod_cast h0
  positivity

/-- Rounding to two decimals keeps a value at most 100 at most 100. -/
theorem pyRound2_le_hundred (x : ℚ) (h : x ≤ 100) : pyRound2 x ≤ 100 := by
  unfold pyRound2
  have h0 : rhe (100 * x) ≤ (10000 : ℤ) := by
    apply rhe_le_intCast
    push_cast
    linarith
  have h0' : ((rhe (100 * x) : ℤ) : ℚ) ≤ (10000 : ℚ) := by exact_mod_cast h0
  linarith

/-- `pyRound2` is the identity on integers. -/
theorem pyRound2_intCast (z : ℤ) : pyRound2 (z : ℚ) = (z : ℚ) := by
  unfold pyRound2
  have h : (100 : ℚ) * (z : ℚ) = ((100 * z : ℤ) : ℚ) := by push_cast; ring
  rw [h, rhe_intCast]
  push_cast
  ring

/-- One step of the grading loop, as an equation. -/
theorem gradeAnswers_cons (qs : List QuizQuestion) (a : QuizAnswer) (rest : List QuizAnswer) :
    gradeAnswers qs (a :: rest) =
      match qs.find? (fun q => q.id == a.question_id) with
      | none => gradeAnswers qs rest
      | some q =>
        if a.answer == q.correct_answer then
          ((gradeAnswers qs rest).1 + 1,
           ("Q" ++ toString a.question_id ++ ": ✓ Correct! " ++ q.explanation) ::
             (gradeAnswers qs rest).2)
        else
          ((gradeAnswers qs rest).1,
           ("Q" ++ toString a.question_id ++ ": ✗ Incorrect. " ++ q.explanation) ::
             (gradeAnswers qs rest).2) := rfl

/-- Grading processes each submitted answer independently: over a concatenation
of submissions the scores add and the feedback lists concatenate. -/
theorem gradeAnswers_append (qs : List QuizQuestion) (l₁ l₂ : List QuizAnswer) :
    gradeAnswers qs (l₁ ++ l₂) =
      ((gradeAnswers qs l₁).1 + (gradeAnswers qs l₂).1,
       (gradeAnswers qs l₁).2 ++ (gradeAnswers qs l₂).2) := by
  induction l₁ with
  | nil => simp [gradeAnswers]
  | cons a l ih =>
    rw [List.cons_append, gradeAnswers_cons qs a (l ++ l₂), gradeAnswers_cons qs a l, ih]
    cases hfind : qs.find? (fun q => q.id == a.question_id) with
    | none => rfl
    | some q =>
      by_cases ha : (a.answer == q.correct_answer) = true <;>
        (simp [ha, Prod.ext_iff]; try omega)

/-- A submitted answer matching no question of the quiz is a no-op wherever it
occurs in the submission. -/
theorem gradeAnswers_skip (qs : List QuizQuestion) (a : QuizAnswer)
    (h : qs.find? (fun q => q.id == a.question_id) = none) (l₁ l₂ : List QuizAnswer) :
    gradeAnswers qs (l₁ ++ a :: l₂) = gradeAnswers qs (l₁ ++ l₂) := by
  induction l₁ with
  | nil =>
    rw [List.nil_append, List.nil_append, gradeAnswers_cons, h]
  | cons b l ih =>
    rw [List.cons_append, List.cons_append, gradeAnswers_cons, gradeAnswers_cons, ih]

/-- The feedback list has one entry per submitted answer that matched a
question, and the score never exceeds the feedback length. -/
theorem gradeAnswers_length (qs : List QuizQuestion) (l : List QuizAnswer) :
    (gradeAnswers qs l).2.length =
      (l.filter fun a => (qs.find? fun q => q.id == a.question_id).isSome).length ∧
    (gradeAnswers qs l).1 ≤ (gradeAnswers qs l).2.length := by
  induction l with
  | nil => simp [gradeAnswers]
  | cons a l ih =>
    obtain ⟨ih1, ih2⟩ := ih
    rw [gradeAnswers_cons, List.filter_cons]
    cases hfind : qs.find? (fun q => q.id == a.question_id) with
    | none => simpa using ⟨ih1, ih2⟩
    | some q =>
      by_cases ha : (a.answer == q.correct_answer) = true <;>
        (simp [ha]; try omega)

/-- C2: duplicate submitted answers are each processed independently — grading
a concatenation adds the scores and concatenates the feedback — and on the
3-question quiz with correct option indices [1,1,2], the duplicate submission
[(q1,1),(q1,1)] yields score 2 and total 3, with one feedback entry per
occurrence. -/
theorem c2_duplicates_counted_independently :
    (∀ (qs : List QuizQuestion) (l₁ l₂ : List QuizAnswer),
        gradeAnswers qs (l₁ ++ l₂) =
          ((gradeAnswers qs l₁).1 + (gradeAnswers qs l₂).1,
           (gradeAnswers qs l₁).2 ++ (gradeAnswers qs l₂).2)) ∧
      (gradeQuiz quiz1 { answers := [⟨1, 1⟩, ⟨1, 1⟩] }).score = 2 ∧
      (gradeQuiz quiz1 { answers := [⟨1, 1⟩, ⟨1, 1⟩] }).total = 3 ∧
      (gradeQuiz quiz1 { answers := [⟨1, 1⟩, ⟨1, 1⟩] }).feedback.length = 2 :=
  ⟨gradeAnswers_append, by decide, by decide, by decide⟩

/-- C4: the `total` field of a grading result always equals the quiz's
question count, whatever the submission; in particular, submitting a single
answer to the 3-question quiz still reports total 3, not 1. -/
theorem c4_total_is_question_count :
    (∀ (quiz : Quiz) (submission : QuizSubmission),
        (gradeQuiz quiz submission).total = quiz.questions.length) ∧
      (gradeQuiz quiz1 { answers := [⟨1, 1⟩] }).total ≠ 1 :=
  ⟨fun _ _ => rfl, by decide⟩

/-- C5: grading a quiz id that matches no quiz in the store returns the 404
error and no result: the early `return` means the grading loop never runs. -/
theorem c5_unknown_quiz_is_not_found (quiz_id : Int) (submission : QuizSubmission)
    (h : ∀ q ∈ quizzes_db, q.id ≠ quiz_id) :
    submit_quiz quiz_id submission = Except.error 404 := by
  have hfind : quizzes_db.find? (fun q => q.id == quiz_id) = none :=
    List.find?_eq_none.mpr fun q hq => by simpa using h q hq
  simp [submit_quiz, hfind]

/-- C5 witness: quiz id 99 is absent from the store and grading it errors. -/
theorem c5_witness :
    (∀ q ∈ quizzes_db, q.id ≠ 99) ∧
      submit_quiz 99 { answers := [] } = Except.error 404 :=
  ⟨by decide, c5_unknown_quiz_is_not_found 99 { answers := [] } (by decide)⟩

/-- C6: a submitted answer whose question id matches no question of the quiz
is skipped silently: removing it from the submission, wherever it occurs,
leaves the whole grading result unchanged. -/
theorem c6_unmatched_answer_skipped (quiz : Quiz) (a : QuizAnswer)
    (l₁ l₂ : List QuizAnswer) (h : ∀ q ∈ quiz.questions, q.id ≠ a.question_id) :
    gradeQuiz quiz { answers := l₁ ++ a :: l₂ } = gradeQuiz quiz { answers := l₁ ++ l₂ } := by
  have hfind : quiz.questions.find? (fun q => q.id == a.question_id) = none :=
    List.find?_eq_none.mpr fun q hq => by simpa using h q hq
  have hg := gradeAnswers_skip quiz.questions a hfind l₁ l₂
  simp [gradeQuiz, hg]

/-- C6 witness: no question of quiz 1 has id 99, and grading with an extra
(99, 0) answer equals grading without it. -/
theorem c6_witness :
    (∀ q ∈ quiz1.questions, q.id ≠ 99) ∧
      gradeQuiz quiz1 { answers := [⟨1, 1⟩, ⟨99, 0⟩] } =
        gradeQuiz quiz1 { answers := [⟨1, 1⟩] } :=
  ⟨by decide, c6_unmatched_answer_skipped quiz1 ⟨99, 0⟩ [⟨1, 1⟩] [] (by decide)⟩

/-- C10: the feedback list has exactly one entry per submitted answer whose
question id matches a question of the quiz (duplicates counted), and
score ≤ feedback length ≤ number of submitted answers. -/
theorem c10_feedback_counts_matched_answers (quiz : Quiz) (submission : QuizSubmission) :
    (gradeQuiz quiz submission).feedback.length =
      (submission.answers.filter fun a =>
        (quiz.questions.find? fun q => q.id == a.question_id).isSome).length ∧
    (gradeQuiz quiz submission).score ≤ (gradeQuiz quiz submission).feedback.length ∧
    (gradeQuiz quiz submission).feedback.length ≤ submission.answers.length := by
  have h := gradeAnswers_length quiz.questions submission.answers
  refine ⟨by simpa [gradeQuiz] using h.1, by simpa [gradeQuiz] using h.2, ?_⟩
  have hle := List.length_filter_le
    (fun a => (quiz.questions.find? fun q => q.id == a.question_id).isSome) submission.answers
  simp only [gradeQuiz]
  rw [h.1]
  exact hle

/-- Rounding 0 to two decimals gives 0. -/
theorem pyRound2_zero : pyRound2 0 = 0 := by
  simpa using pyRound2_intCast 0

/-- Rounding 100 to two decimals gives 100. -/
theorem pyRound2_hundred : pyRound2 100 = 100 := by
  simpa using pyRound2_intCast 100

/-- C8: grading any quiz against an empty submission yields score 0, empty
feedback, total the quiz's question count, percentage 0, and passed false. -/
theorem c8_empty_submission_scores_zero (quiz : Quiz) :
    gradeQuiz quiz { answers := [] } =
      { score := 0, total := quiz.questions.length, percentage := 0,
        passed := false, feedback := [] } := by
  rcases Nat.eq_zero_or_pos quiz.questions.length with h | h <;>
    (simp [gradeQuiz, gradeAnswers, h, pyRound2_zero, QuizResult.mk.injEq,
      decide_eq_false_iff_not]; try norm_num)

/-- C1 (counterexample): on quiz 1 (three questions), submitting the correct
answer to question 1 four times gives score 4 out of total 3, and the
percentage field exceeds 100 — so the percentage is NOT always within
[0, 100]. -/
theorem c1_counterexample :
    quiz1 ∈ quizzes_db ∧
      ¬ (gradeQuiz quiz1 { answers := [⟨1, 1⟩, ⟨1, 1⟩, ⟨1, 1⟩, ⟨1, 1⟩] }).percentage ≤ 100 := by
  refine ⟨by decide, ?_⟩
  have hp : (gradeQuiz quiz1 { answers := [⟨1, 1⟩, ⟨1, 1⟩, ⟨1, 1⟩, ⟨1, 1⟩] }).percentage
      = pyRound2 ((4 : ℚ) / 3 * 100) := by
    have h0 : (gradeQuiz quiz1 { answers := [⟨1, 1⟩, ⟨1, 1⟩, ⟨1, 1⟩, ⟨1, 1⟩] }).percentage
        = pyRound2 (((gradeAnswers quiz1.questions [⟨1, 1⟩, ⟨1, 1⟩, ⟨1, 1⟩, ⟨1, 1⟩]).1 : ℚ)
            / ((3 : ℕ) : ℚ) * 100) := rfl
    have hs : (gradeAnswers quiz1.questions [⟨1, 1⟩, ⟨1, 1⟩, ⟨1, 1⟩, ⟨1, 1⟩]).1 = 4 := by
      decide
    rw [h0, hs]
    norm_num
  rw [hp]
  have hge := pyRound2_ge ((4 : ℚ) / 3 * 100)
  intro hcon
  linarith

/-- C1 (amended): the percentage field is always nonnegative; it is at most
100 whenever score ≤ total; when the quiz has at least one question it equals
score/total × 100 rounded to 2 decimal places, else it is 0. -/
theorem c1_percentage_amended (quiz : Quiz) (submission : QuizSubmission) :
    0 ≤ (gradeQuiz quiz submission).percentage ∧
    ((gradeQuiz quiz submission).score ≤ (gradeQuiz quiz submission).total →
      (gradeQuiz quiz submission).percentage ≤ 100) ∧
    (0 < (gradeQuiz quiz submission).total →
      (gradeQuiz quiz submission).percentage =
        pyRound2 (((gradeQuiz quiz submission).score : ℚ)
          / ((gradeQuiz quiz submission).total : ℚ) * 100)) ∧
    ((gradeQuiz quiz submission).total = 0 → (gradeQuiz quiz submission).percentage = 0) := by
  have hp : (gradeQuiz quiz submission).percentage
      = pyRound2 (if 0 < quiz.questions.length
          then ((gradeAnswers quiz.questions submission.answers).1 : ℚ)
            / (quiz.questions.length : ℚ) * 100 else 0) := rfl
  have hsc : (gradeQuiz quiz submission).score
      = (gradeAnswers quiz.questions submission.answers).1 := rfl
  have ht : (gradeQuiz quiz submission).total = quiz.questions.length := rfl
  rw [hp, hsc, ht]
  rcases Nat.eq_zero_or_pos quiz.questions.length with h | h
  · rw [h]
    norm_num [pyRound2_zero]
  · rw [if_pos h]
    have hn0 : (0 : ℚ) < (quiz.questions.length : ℚ) := by exact_mod_cast h
    refine ⟨?_, ?_, ?_, ?_⟩
    · apply pyRound2_nonneg
      positivity
    · intro hsn
      apply pyRound2_le_hundred
      have hcast : ((gradeAnswers quiz.questions submission.answers).1 : ℚ)
          ≤ (quiz.questions.length : ℚ) := by exact_mod_cast hsn
      have hdiv : ((gradeAnswers quiz.questions submission.answers).1 : ℚ)
          / (quiz.questions.length : ℚ) ≤ 1 := (div_le_one hn0).mpr hcast
      linarith
    · intro _
      rfl
    · intro h0
      omega

/-- C1 witness: on quiz 1 with an empty submission the hypotheses of the
amended claim hold and give percentage = round(score/total × 100) ≤ 100. -/
theorem c1_percentage_amended_witness :
    ((gradeQuiz quiz1 { answers := [] }).score ≤ (gradeQuiz quiz1 { answers := [] }).total ∧
      (gradeQuiz quiz1 { answers := [] }).percentage ≤ 100) ∧
    (0 < (gradeQuiz quiz1 { answers := [] }).total ∧
      (gradeQuiz quiz1 { answers := [] }).percentage =
        pyRound2 (((gradeQuiz quiz1 { answers := [] }).score : ℚ)
          / ((gradeQuiz quiz1 { answers := [] }).total : ℚ) * 100)) :=
  ⟨⟨by decide, (c1_percentage_amended quiz1 { answers := [] }).2.1 (by decide)⟩,
   ⟨by decide, (c1_percentage_amended quiz1 { answers := [] }).2.2.1 (by decide)⟩⟩

/-- C3: for every quiz of the store, the passed flag is true exactly when the
(rounded) percentage field is at least 70, boundary inclusive. -/
theorem c3_passed_iff_percentage_ge_70 (quiz : Quiz) (submission : QuizSubmission)
    (h : quiz ∈ quizzes_db) :
    (gradeQuiz quiz submission).passed = true ↔
      70 ≤ (gradeQuiz quiz submission).percentage := by
  have hq : quiz = quiz1 ∨ quiz = quiz2 := by simpa [quizzes_db] using h
  rcases hq with rfl | rfl
  · show decide (70 ≤ ((gradeAnswers quiz1.questions submission.answers).1 : ℚ)
        / ((3 : ℕ) : ℚ) * 100) = true ↔
      70 ≤ pyRound2 (((gradeAnswers quiz1.questions submission.answers).1 : ℚ)
        / ((3 : ℕ) : ℚ) * 100)
    rw [decide_eq_true_iff]
    generalize (gradeAnswers quiz1.questions submission.answers).1 = s
    push_cast
    by_cases h3 : 3 ≤ s
    · have hc : (3 : ℚ) ≤ (s : ℚ) := by exact_mod_cast h3
      have h1 : (70 : ℚ) ≤ (s : ℚ) / 3 * 100 := by linarith
      have h2 : (70 : ℚ) ≤ pyRound2 ((s : ℚ) / 3 * 100) := by
        have := pyRound2_ge ((s : ℚ) / 3 * 100)
        linarith
      exact iff_of_true h1 h2
    · have hs2 : s ≤ 2 := by omega
      have hc : (s : ℚ) ≤ 2 := by exact_mod_cast hs2
      have h1 : ¬ (70 : ℚ) ≤ (s : ℚ) / 3 * 100 := by
        intro hcon
        linarith
      have h2 : ¬ (70 : ℚ) ≤ pyRound2 ((s : ℚ) / 3 * 100) := by
        have := pyRound2_le ((s : ℚ) / 3 * 100)
        intro hcon
        linarith
      exact iff_of_false h1 h2
  · show decide (70 ≤ ((gradeAnswers quiz2.questions submission.answers).1 : ℚ)
        / ((2 : ℕ) : ℚ) * 100) = true ↔
      70 ≤ pyRound2 (((gradeAnswers quiz2.questions submission.answers).1 : ℚ)
        / ((2 : ℕ) : ℚ) * 100)
    rw [decide_eq_true_iff]
    generalize (gradeAnswers quiz2.questions submission.answers).1 = s
    push_cast
    by_cases h3 : 2 ≤ s
    · have hc : (2 : ℚ) ≤ (s : ℚ) := by exact_mod_cast h3
      have h1 : (70 : ℚ) ≤ (s : ℚ) / 2 * 100 := by linarith
      have h2 : (70 : ℚ) ≤ pyRound2 ((s : ℚ) / 2 * 100) := by
        have := pyRound2_ge ((s : ℚ) / 2 * 100)
        linarith
      exact iff_of_true h1 h2
    · have hs2 : s ≤ 1 := by omega
      have hc : (s : ℚ) ≤ 1 := by exact_mod_cast hs2
      have h1 : ¬ (70 : ℚ) ≤ (s : ℚ) / 2 * 100 := by
        intro hcon
        linarith
      have h2 : ¬ (70 : ℚ) ≤ pyRound2 ((s : ℚ) / 2 * 100) := by
        have := pyRound2_le ((s : ℚ) / 2 * 100)
        intro hcon
        linarith
      exact iff_of_false h1 h2

/-- C3 witness: quiz 1 is in the store and the equivalence holds there. -/
theorem c3_witness :
    quiz1 ∈ quizzes_db ∧
      ((gradeQuiz quiz1 { answers := [] }).passed = true ↔
        70 ≤ (gradeQuiz quiz1 { answers := [] }).percentage) :=
  ⟨by decide, c3_passed_iff_percentage_ge_70 quiz1 { answers := [] } (by decide)⟩

/-- When the question ids of a quiz are pairwise distinct, looking a member
question up by its own id finds exactly that question. -/
theorem find?_of_nodup (qs : List QuizQuestion)
    (hnd : (qs.map fun q => q.id).Nodup) (q : QuizQuestion) (hq : q ∈ qs) :
    qs.find? (fun p => p.id == q.id) = some q := by
  induction qs with
  | nil => cases hq
  | cons p rest ih =>
    rw [List.map_cons, List.nodup_cons] at hnd
    rcases List.mem_cons.mp hq with rfl | hq'
    · simp [List.find?_cons]
    · have hne : p.id ≠ q.id := fun he =>
        hnd.1 (he ▸ List.mem_map_of_mem (fun x => x.id) hq')
      have hfalse : (p.id == q.id) = false := beq_eq_false_iff_ne.mpr hne
      rw [List.find?_cons, hfalse]
      exact ih hnd.2 hq'

/-- With pairwise-distinct question ids, grading the submission that answers
each question of `l` with its correct option index scores one point and one
positive feedback line per question. -/
theorem gradeAnswers_all_correct (qs : List QuizQuestion)
    (hnd : (qs.map fun q => q.id).Nodup) (l : List QuizQuestion)
    (hsub : ∀ q ∈ l, q ∈ qs) :
    gradeAnswers qs (l.map fun q => { question_id := q.id, answer := q.correct_answer }) =
      (l.length, l.map fun q => "Q" ++ toString q.id ++ ": ✓ Correct! " ++ q.explanation) := by
  induction l with
  | nil => rfl
  | cons q rest ih =>
    rw [List.map_cons, gradeAnswers_cons,
      ih fun p hp => hsub p (List.mem_cons_of_mem q hp)]
    dsimp only
    rw [find?_of_nodup qs hnd q (hsub q (List.mem_cons_self q rest))]
    simp

/-- C7: for any quiz of the store with pairwise-distinct question ids,
submitting exactly one answer per question, each being the question's correct
option index, yields score = total = question count, percentage 100, and
passed true. -/
theorem c7_all_correct_gives_full_marks (quiz : Quiz) (h : quiz ∈ quizzes_db)
    (hnd : (quiz.questions.map fun q => q.id).Nodup) :
    (gradeQuiz quiz { answers := quiz.questions.map fun q =>
        { question_id := q.id, answer := q.correct_answer } }).score
      = quiz.questions.length ∧
    (gradeQuiz quiz { answers := quiz.questions.map fun q =>
        { question_id := q.id, answer := q.correct_answer } }).total
      = quiz.questions.length ∧
    (gradeQuiz quiz { answers := quiz.questions.map fun q =>
        { question_id := q.id, answer := q.correct_answer } }).percentage = 100 ∧
    (gradeQuiz quiz { answers := quiz.questions.map fun q =>
        { question_id := q.id, answer := q.correct_answer } }).passed = true := by
  have hg := gradeAnswers_all_correct quiz.questions hnd quiz.questions fun q hq => hq
  have hpos : 0 < quiz.questions.length := by
    have hq : quiz = quiz1 ∨ quiz = quiz2 := by simpa [quizzes_db] using h
    rcases hq with rfl | rfl <;> decide
  have hpre : (if 0 < quiz.questions.length
      then ((gradeAnswers quiz.questions (quiz.questions.map fun q =>
          ({ question_id := q.id, answer := q.correct_answer } : QuizAnswer))).1 : ℚ)
        / (quiz.questions.length : ℚ) * 100
      else 0) = 100 := by
    rw [if_pos hpos, hg]
    have hne : ((quiz.questions.length : ℚ)) ≠ 0 := by
      have := Nat.pos_iff_ne_zero.mp hpos
      exact_mod_cast this
    field_simp
  refine ⟨?_, rfl, ?_, ?_⟩
  · have h0 : (gradeQuiz quiz { answers := quiz.questions.map fun q =>
        { question_id := q.id, answer := q.correct_answer } }).score
        = (gradeAnswers quiz.questions (quiz.questions.map fun q =>
            ({ question_id := q.id, answer := q.correct_answer } : QuizAnswer))).1 := rfl
    rw [h0, hg]
  · have h0 : (gradeQuiz quiz { answers := quiz.questions.map fun q =>
        { question_id := q.id, answer := q.correct_answer } }).percentage
        = pyRound2 (if 0 < quiz.questions.length
            then ((gradeAnswers quiz.questions (quiz.questions.map fun q =>
                ({ question_id := q.id, answer := q.correct_answer } : QuizAnswer))).1 : ℚ)
              / (quiz.questions.length : ℚ) * 100
            else 0) := rfl
    rw [h0, hpre, pyRound2_hundred]
  · have h0 : (gradeQuiz quiz { answers := quiz.questions.map fun q =>
        { question_id := q.id, answer := q.correct_answer } }).passed
        = decide (70 ≤ (if 0 < quiz.questions.length
            then ((gradeAnswers quiz.questions (quiz.questions.map fun q =>
                ({ question_id := q.id, answer := q.correct_answer } : QuizAnswer))).1 : ℚ)
              / (quiz.questions.length : ℚ) * 100
            else 0)) := rfl
    rw [h0, hpre, decide_eq_true_iff]
    norm_num

/-- C7 witness: quiz 1 has distinct question ids and all-correct submission
gives 3/3, 100 percent, passed. -/
theorem c7_witness :
    quiz1 ∈ quizzes_db ∧ (quiz1.questions.map fun q => q.id).Nodup ∧
      ((gradeQuiz quiz1 { answers := quiz1.questions.map fun q =>
          { question_id := q.id, answer := q.correct_answer } }).score
        = quiz1.questions.length ∧
      (gradeQuiz quiz1 { answers := quiz1.questions.map fun q =>
          { question_id := q.id, answer := q.correct_answer } }).total
        = quiz1.questions.length ∧
      (gradeQuiz quiz1 { answers := quiz1.questions.map fun q =>
          { question_id := q.id, answer := q.correct_answer } }).percentage = 100 ∧
      (gradeQuiz quiz1 { answers := quiz1.questions.map fun q =>
          { question_id := q.id, answer := q.correct_answer } }).passed = true) :=
  ⟨by decide, by decide, c7_all_correct_gives_full_marks quiz1 (by decide) (by decide)⟩

set_option maxRecDepth 1000000 in
/-- C9: a result row appears in the keyword search exactly when the lowercased
keyword occurs in the lesson's lowercased title or content (key concepts are
not consulted for inclusion), and its matching-concepts field is the filter of
the lesson's key concepts containing the keyword; concretely, "super()"
occurs among lesson 2's key concepts but in no title or content, so the
search for it returns no rows. -/
theorem c9_search_matches_title_or_content :
    (∀ (keyword : String) (r : SearchResult),
        r ∈ search_lessons keyword ↔
          ∃ l, l ∈ lessons_db ∧
            (strIn (pyLower keyword) (pyLower l.title)
              || strIn (pyLower keyword) (pyLower l.content)) = true ∧
            r = { id := l.id, title := l.title, difficulty := l.difficulty,
                  matching_concepts :=
                    l.key_concepts.filter fun c => strIn (pyLower keyword) (pyLower c) }) ∧
      search_lessons "super()" = [] ∧
      lesson2.key_concepts.filter
          (fun c => strIn (pyLower "super()") (pyLower c)) = ["super()"] ∧
      lesson2 ∈ lessons_db := by
  refine ⟨?_, ?_, ?_, ?_⟩
  · intro keyword r
    simp only [search_lessons, List.mem_map, List.mem_filter]
    constructor
    · rintro ⟨l, ⟨hl, hp⟩, hr⟩
      exact ⟨l, hl, hp, hr.symm⟩
    · rintro ⟨l, hl, hp, hr⟩
      exact ⟨l, ⟨hl, hp⟩, hr.symm⟩
  · decide
  · decide
  · decide
